import Mathlib

/-!
Verification of the color_scheme_generator core against its specification.

This file shallowly embeds the relevant Rust code:
* `src/common.rs` — `RGB`, its `Display`/`FromStr` instances, `char_to_u8`,
  `Centrality`, `ColorThemeOption`, `Wallpaper`;
* `src/theme_calculation.rs` — `average_pixel`, `median_pixel`, `median`,
  `prevalent_pixel`, `calculate_color_theme`, `complementary_color`;
* `src/database.rs` — the three-relation SQLite cache (`wallpaper`,
  `color_themes`, `RGB` tables) and its insert/select operations.

Machine integers (`u8`, `u16`, `usize`, `i64`) are modelled as `Nat`; the
fields carry no intrinsic bound, and theorems that need the `u8` range add it
as an explicit hypothesis.  Strings at the hex-serialization boundary are
modelled as lists of byte values (`List Nat`), matching the Rust code, which
indexes `s.as_bytes()`.  Fallible Rust functions (`anyhow::Result`, panics)
are modelled with `Option`.
-/

/-- Struct `RGB` from `src/common.rs`: three `u8` sub-pixels, modelled as `Nat`. -/
structure RGB where
  red : Nat
  green : Nat
  blue : Nat
deriving DecidableEq, Repr

/-- The `u8` range invariant of the three channels of an `RGB` value. -/
def RGB.isByte (c : RGB) : Prop :=
  c.red < 256 ∧ c.green < 256 ∧ c.blue < 256

instance (c : RGB) : Decidable c.isByte := by
  unfold RGB.isByte
  infer_instance

/-- Enum `Centrality` from `src/common.rs`. -/
inductive Centrality where
  | average
  | median
  | prevalent
deriving DecidableEq, Repr

/-- The `Display` impl for `Centrality` (`src/common.rs`). -/
def Centrality.display : Centrality → String
  | .average => "average"
  | .median => "median"
  | .prevalent => "prevalent"

/-- The `FromStr` impl for `Centrality` (`src/common.rs`): exact match on the
three lowercase names, anything else is an error. -/
def Centrality.fromStr (s : String) : Option Centrality :=
  if s = "average" then some .average
  else if s = "median" then some .median
  else if s = "prevalent" then some .prevalent
  else none

/-- Struct `ColorThemeOption` from `src/common.rs`: the 15-field palette
transformation option vector.  `u8`/`u16` fields are `Nat`, flags are `Bool`. -/
@[ext]
structure ColorThemeOption where
  darker : Nat
  lighter : Nat
  complementary : Bool
  contrast : Bool
  hue_offset : Nat
  triadic : Bool
  quadratic : Bool
  tetratic : Bool
  analogous : Bool
  split_complementary : Bool
  monochromatic : Nat
  shades : Nat
  tints : Nat
  tones : Nat
  blends : Nat
deriving DecidableEq, Repr

/-- The all-default option vector (every clap default: 0 / false). -/
def ColorThemeOption.default : ColorThemeOption :=
  { darker := 0, lighter := 0, complementary := false, contrast := false,
    hue_offset := 0, triadic := false, quadratic := false, tetratic := false,
    analogous := false, split_complementary := false, monochromatic := 0,
    shades := 0, tints := 0, tones := 0, blends := 0 }

/-- Number of fields of an option vector holding a non-default value. -/
def nonDefaultCount (ct : ColorThemeOption) : Nat :=
  (if ct.darker = 0 then 0 else 1) + (if ct.lighter = 0 then 0 else 1) +
  (if ct.complementary = false then 0 else 1) + (if ct.contrast = false then 0 else 1) +
  (if ct.hue_offset = 0 then 0 else 1) + (if ct.triadic = false then 0 else 1) +
  (if ct.quadratic = false then 0 else 1) + (if ct.tetratic = false then 0 else 1) +
  (if ct.analogous = false then 0 else 1) + (if ct.split_complementary = false then 0 else 1) +
  (if ct.monochromatic = 0 then 0 else 1) + (if ct.shades = 0 then 0 else 1) +
  (if ct.tints = 0 then 0 else 1) + (if ct.tones = 0 then 0 else 1) +
  (if ct.blends = 0 then 0 else 1)

/-- The documented precondition on option vectors: all fields default, or
exactly one non-default field (the mutually-exclusive option group). -/
def atMostOneNonDefault (ct : ColorThemeOption) : Prop :=
  nonDefaultCount ct ≤ 1

instance (ct : ColorThemeOption) : Decidable (atMostOneNonDefault ct) := by
  unfold atMostOneNonDefault
  infer_instance

/-- Struct `Wallpaper` from `src/common.rs`: image path (opaque string key)
plus the chosen centrality. -/
structure Wallpaper where
  path : String
  centrality : Centrality
deriving DecidableEq, Repr

/-! ### Hex serialization of `RGB` (`src/common.rs`) -/

/-- One lowercase hex digit byte, as produced by Rust `format "\x7b:02x\x7d"`:
digits 0-9 are bytes 48-57, digits 10-15 are bytes 97-102 (lowercase a-f). -/
def hexDigitByte (d : Nat) : Nat :=
  if d < 10 then 48 + d else 87 + d

/-- The two hex digit bytes of one `u8` channel value (high digit first). -/
def hexPair (n : Nat) : List Nat :=
  [hexDigitByte (n / 16), hexDigitByte (n % 16)]

/-- The `Display` impl for `RGB` (`src/common.rs`):
`#` (byte 35) followed by two lowercase hex digits per channel, red, green,
blue, rendered here as the list of bytes of the produced string. -/
def RGB.display (c : RGB) : List Nat :=
  35 :: (hexPair c.red ++ hexPair c.green ++ hexPair c.blue)

/-- Byte-level `to_ascii_uppercase`: lowercase ASCII letters move down by 32. -/
def byteToUpper (b : Nat) : Nat :=
  if 97 ≤ b ∧ b ≤ 122 then b - 32 else b

/-- Function `char_to_u8` from `src/common.rs`.  Note the first match arm's
range really is `48..=58` in the source (it includes byte 58), and the second
is `65..=90`; both are translated as written. -/
def char_to_u8 (c : Nat) : Option Nat :=
  let x := byteToUpper c
  if 48 ≤ x ∧ x ≤ 58 then some (x - 48)
  else if 65 ≤ x ∧ x ≤ 90 then some (x - 55)
  else none

/-- Function `hex_to_rgb` from `src/common.rs`: most significant digit shifted
left by 4 plus least significant digit, then `u8::try_from` (range check). -/
def hex_to_rgb (msd lsd : Nat) : Option Nat := do
  let leading ← char_to_u8 msd
  let smallest ← char_to_u8 lsd
  let ret := 16 * leading + smallest
  if ret < 256 then some ret else none

/-- Membership in the regex character class `[0123456789AaBbCcDdEeFf]` of the
`FromStr` impl for `RGB`. -/
def isHexByte (b : Nat) : Bool :=
  (48 ≤ b && b ≤ 57) || (65 ≤ b && b ≤ 70) || (97 ≤ b && b ≤ 102)

/-- A lowercase hex digit byte (`0-9` or `a-f`), as emitted by `RGB.display`. -/
def isLowerHexByte (b : Nat) : Bool :=
  (48 ≤ b && b ≤ 57) || (97 ≤ b && b ≤ 102)

/-- The `FromStr` impl for `RGB` (`src/common.rs`): the input must match
`^#[0123456789AaBbCcDdEeFf]\x7b6\x7d$`, then the three channel values are decoded
from the byte pairs via `hex_to_rgb`. -/
def RGB.fromStr (s : List Nat) : Option RGB :=
  match s with
  | [b0, b1, b2, b3, b4, b5, b6] =>
    if b0 = 35 && isHexByte b1 && isHexByte b2 && isHexByte b3 &&
       isHexByte b4 && isHexByte b5 && isHexByte b6 then do
      let red ← hex_to_rgb b1 b2
      let green ← hex_to_rgb b3 b4
      let blue ← hex_to_rgb b5 b6
      some { red := red, green := green, blue := blue }
    else none
  | _ => none

/-- The shape accepted by the `FromStr` regex, as a proposition: a `#` byte
followed by exactly six hex digit bytes (either case). -/
def HexColorShape (s : List Nat) : Prop :=
  ∃ t, s = 35 :: t ∧ t.length = 6 ∧ ∀ b ∈ t, isHexByte b = true

/-- One byte is a case variant of another when it is equal to it or to its
ASCII uppercasing. -/
def VariantByte (d v : Nat) : Prop :=
  v = d ∨ v = byteToUpper d

/-! ### Theme calculation (`src/theme_calculation.rs`) -/

/-- Struct `ColorTheme` from `src/theme_calculation.rs`. -/
structure ColorTheme where
  bar_color : RGB
  workspace_color : RGB
  text_color : RGB
deriving DecidableEq, Repr

/-- Function `complementary_color`: each channel is `255 - value` (`u8`
subtraction, which never underflows for byte inputs; `Nat` subtraction agrees
on that range). -/
def complementary_color (c : RGB) : RGB :=
  { red := 255 - c.red, green := 255 - c.green, blue := 255 - c.blue }

/-- Function `calculate_color_theme`: bar color is the input, workspace color
its complement, text color black when all three workspace channels exceed 128
(the source tests red, blue, green in that order) and white otherwise. -/
def calculate_color_theme (c : RGB) : ColorTheme :=
  let workspace_color := complementary_color c
  let text_color :=
    if 128 < workspace_color.red ∧ 128 < workspace_color.blue ∧ 128 < workspace_color.green then
      ({ red := 0, green := 0, blue := 0 } : RGB)
    else
      ({ red := 255, green := 255, blue := 255 } : RGB)
  { bar_color := c, workspace_color := workspace_color, text_color := text_color }

/-- Function `average_pixel`: per channel, the `usize` sum of all values
integer-divided by the pixel count.  On an empty slice the Rust code divides
by zero and panics, modelled as `none`. -/
def average_pixel (pixels : List RGB) : Option RGB :=
  if pixels.isEmpty then none
  else some
    { red := (pixels.map RGB.red).sum / pixels.length,
      green := (pixels.map RGB.green).sum / pixels.length,
      blue := (pixels.map RGB.blue).sum / pixels.length }

/-- Function `median` from `src/theme_calculation.rs`.  The source indexes the
slice directly — it never sorts it.  Even length: the elements at positions
`len/2 - 1` and `len/2` are averaged with truncation; odd length: the element
at position `(len as f64 / 2.0 - 1.0) as usize`, whose float arithmetic and
saturating cast equal `Nat` `len / 2 - 1` (saturating at length 1).  On an
empty slice the even branch indexes out of range and panics, modelled `none`. -/
def median (color_slice : List Nat) : Option Nat :=
  if color_slice.isEmpty then none
  else if color_slice.length % 2 = 0 then
    let left_middle := color_slice.getD (color_slice.length / 2 - 1) 0
    let right_middle := color_slice.getD (color_slice.length / 2) 0
    some ((right_middle + left_middle) / 2)
  else
    some (color_slice.getD (color_slice.length / 2 - 1) 0)

/-- Function `median_pixel`: the three per-channel medians combined. -/
def median_pixel (pixels : List RGB) : Option RGB := do
  let red ← median (pixels.map RGB.red)
  let green ← median (pixels.map RGB.green)
  let blue ← median (pixels.map RGB.blue)
  some { red := red, green := green, blue := blue }

/-- The contents of the occurrence-count `HashMap` built by `prevalent_pixel`:
each distinct pixel paired with its occurrence count.  The Rust `HashMap`
iteration order is unspecified (documented as platform-dependent in the spec),
so the map contents are enumerated here in `dedup` order. -/
def pixel_prevalence_count (pixels : List RGB) : List (RGB × Nat) :=
  pixels.dedup.map (fun p => (p, pixels.count p))

/-- The comparator of `most_prevalent.sort_by(|a,b| b.1.cmp(a.1))`:
descending occurrence count. -/
def prevalenceGE (a b : RGB × Nat) : Prop :=
  b.2 ≤ a.2

instance : DecidableRel prevalenceGE :=
  fun a b => Nat.decLe b.2 a.2

instance : IsTotal (RGB × Nat) prevalenceGE :=
  ⟨fun a b => Nat.le_total b.2 a.2⟩

instance : IsTrans (RGB × Nat) prevalenceGE :=
  ⟨fun _ _ _ hab hbc => Nat.le_trans hbc hab⟩

/-- Function `prevalent_pixel`: count occurrences, sort descending by count
(a stable sort, like Rust's `sort_by`), and keep the first `number_of_themes`
entries when there are more distinct pixels than requested. -/
def prevalent_pixel (pixels : List RGB) (number_of_themes : Nat) : List RGB :=
  let most_prevalent := List.insertionSort prevalenceGE (pixel_prevalence_count pixels)
  if number_of_themes < most_prevalent.length then
    (most_prevalent.take number_of_themes).map Prod.fst
  else
    most_prevalent.map Prod.fst

/-! ### Helper lemmas about the hex serialization -/

theorem char_to_u8_lower_hex : ∀ d < 16, char_to_u8 (hexDigitByte d) = some d := by
  decide

theorem char_to_u8_upper_hex : ∀ d < 16, char_to_u8 (byteToUpper (hexDigitByte d)) = some d := by
  decide

theorem isHexByte_lower : ∀ d < 16, isHexByte (hexDigitByte d) = true := by
  decide

theorem isHexByte_upper : ∀ d < 16, isHexByte (byteToUpper (hexDigitByte d)) = true := by
  decide

theorem isLowerHexByte_hexDigitByte : ∀ d < 16, isLowerHexByte (hexDigitByte d) = true := by
  decide

theorem variant_hex_digit {d v : Nat} (hd : d < 16) (hv : VariantByte (hexDigitByte d) v) :
    isHexByte v = true ∧ char_to_u8 v = some d := by
  rcases hv with h | h <;> subst h
  · exact ⟨isHexByte_lower d hd, char_to_u8_lower_hex d hd⟩
  · exact ⟨isHexByte_upper d hd, char_to_u8_upper_hex d hd⟩

theorem hex_to_rgb_variant {n v1 v2 : Nat} (hn : n < 256)
    (h1 : VariantByte (hexDigitByte (n / 16)) v1)
    (h2 : VariantByte (hexDigitByte (n % 16)) v2) :
    hex_to_rgb v1 v2 = some n ∧ isHexByte v1 = true ∧ isHexByte v2 = true := by
  have hd1 : n / 16 < 16 := Nat.div_lt_of_lt_mul (by omega)
  have hd2 : n % 16 < 16 := Nat.mod_lt _ (by omega)
  obtain ⟨hx1, hc1⟩ := variant_hex_digit hd1 h1
  obtain ⟨hx2, hc2⟩ := variant_hex_digit hd2 h2
  have hdm : 16 * (n / 16) + n % 16 = n := Nat.div_add_mod n 16
  refine ⟨?_, hx1, hx2⟩
  simp [hex_to_rgb, hc1, hc2, hdm, hn]

theorem fromStr_variant (c : RGB) (h : c.isByte) (s : List Nat)
    (hs : List.Forall₂ VariantByte c.display s) : RGB.fromStr s = some c := by
  obtain ⟨hr, hg, hb⟩ := h
  simp only [RGB.display, hexPair, List.cons_append, List.nil_append] at hs
  rw [List.forall₂_cons_left_iff] at hs
  obtain ⟨v0, s0, hv0, hs, rfl⟩ := hs
  rw [List.forall₂_cons_left_iff] at hs
  obtain ⟨v1, s1, hv1, hs, rfl⟩ := hs
  rw [List.forall₂_cons_left_iff] at hs
  obtain ⟨v2, s2, hv2, hs, rfl⟩ := hs
  rw [List.forall₂_cons_left_iff] at hs
  obtain ⟨v3, s3, hv3, hs, rfl⟩ := hs
  rw [List.forall₂_cons_left_iff] at hs
  obtain ⟨v4, s4, hv4, hs, rfl⟩ := hs
  rw [List.forall₂_cons_left_iff] at hs
  obtain ⟨v5, s5, hv5, hs, rfl⟩ := hs
  rw [List.forall₂_cons_left_iff] at hs
  obtain ⟨v6, s6, hv6, hs, rfl⟩ := hs
  rw [List.forall₂_nil_left_iff] at hs
  subst hs
  have e0 : v0 = 35 := by
    rcases hv0 with h0 | h0
    · exact h0
    · rw [h0]
      decide
  subst e0
  obtain ⟨er, xr1, xr2⟩ := hex_to_rgb_variant hr hv1 hv2
  obtain ⟨eg, xg1, xg2⟩ := hex_to_rgb_variant hg hv3 hv4
  obtain ⟨eb, xb1, xb2⟩ := hex_to_rgb_variant hb hv5 hv6
  simp [RGB.fromStr, xr1, xr2, xg1, xg2, xb1, xb2, er, eg, eb]

theorem fromStr_display (c : RGB) (h : c.isByte) : RGB.fromStr c.display = some c := by
  apply fromStr_variant c h
  rw [List.forall₂_same]
  intro a _
  exact Or.inl rfl

theorem display_tail_lower (c : RGB) (h : c.isByte) :
    ∀ b ∈ hexPair c.red ++ hexPair c.green ++ hexPair c.blue, isLowerHexByte b = true := by
  obtain ⟨hr, hg, hb⟩ := h
  intro b hbmem
  have hdiv : ∀ n : Nat, n < 256 → n / 16 < 16 := fun n hn => Nat.div_lt_of_lt_mul (by omega)
  have hmod : ∀ n : Nat, n < 256 → n % 16 < 16 := fun n hn => Nat.mod_lt _ (by omega)
  simp only [hexPair, List.mem_append, List.mem_cons, List.not_mem_nil, or_false] at hbmem
  rcases hbmem with ((h' | h') | (h' | h')) | (h' | h') <;> subst h'
  · exact isLowerHexByte_hexDigitByte _ (hdiv _ hr)
  · exact isLowerHexByte_hexDigitByte _ (hmod _ hr)
  · exact isLowerHexByte_hexDigitByte _ (hdiv _ hg)
  · exact isLowerHexByte_hexDigitByte _ (hmod _ hg)
  · exact isLowerHexByte_hexDigitByte _ (hdiv _ hb)
  · exact isLowerHexByte_hexDigitByte _ (hmod _ hb)

theorem fromStr_eq_none_of_not_shape (s : List Nat) (h : ¬ HexColorShape s) :
    RGB.fromStr s = none := by
  rcases s with _ | ⟨b0, _ | ⟨b1, _ | ⟨b2, _ | ⟨b3, _ | ⟨b4, _ | ⟨b5, _ | ⟨b6, _ | ⟨b7, rest⟩⟩⟩⟩⟩⟩⟩⟩
  · rfl
  · rfl
  · rfl
  · rfl
  · rfl
  · rfl
  · rfl
  · by_cases hg : (b0 = 35 && isHexByte b1 && isHexByte b2 && isHexByte b3 &&
        isHexByte b4 && isHexByte b5 && isHexByte b6) = true
    · exfalso
      apply h
      simp only [Bool.and_eq_true, decide_eq_true_eq] at hg
      obtain ⟨⟨⟨⟨⟨⟨h0, h1⟩, h2⟩, h3⟩, h4⟩, h5⟩, h6⟩ := hg
      refine ⟨[b1, b2, b3, b4, b5, b6], by rw [h0], rfl, ?_⟩
      intro b hbmem
      simp only [List.mem_cons, List.not_mem_nil, or_false] at hbmem
      rcases hbmem with h' | h' | h' | h' | h' | h' <;> subst h' <;> assumption
    · simp only [RGB.fromStr]
      rw [if_neg hg]
  · rfl

/-! ### Claim theorems: textual colors and theme calculation -/

/-- C8: for every RGB byte triple, the rendering is a `#` byte followed by six
lowercase hex digit bytes, two per channel in red, green, blue order; parsing
the rendering itself, or any per-byte case variant of it, returns the original
value; and parsing any byte string not shaped as `#` plus six hex digits
fails. -/
theorem rgb_textual_roundtrip (c : RGB) (h : c.isByte) :
    c.display = 35 :: (hexPair c.red ++ hexPair c.green ++ hexPair c.blue)
    ∧ (hexPair c.red).length = 2 ∧ (hexPair c.green).length = 2 ∧ (hexPair c.blue).length = 2
    ∧ (∀ b ∈ hexPair c.red ++ hexPair c.green ++ hexPair c.blue, isLowerHexByte b = true)
    ∧ RGB.fromStr c.display = some c
    ∧ (∀ s, List.Forall₂ VariantByte c.display s → RGB.fromStr s = some c)
    ∧ (∀ s, ¬ HexColorShape s → RGB.fromStr s = none) := by
  refine ⟨rfl, rfl, rfl, rfl, display_tail_lower c h, fromStr_display c h,
    fun s hs => fromStr_variant c h s hs, fun s hs => fromStr_eq_none_of_not_shape s hs⟩

/-- Witness for C8 at the concrete color `#c86432` = (200, 100, 50). -/
theorem rgb_textual_roundtrip_witness :
    RGB.fromStr (RGB.display ⟨200, 100, 50⟩) = some ⟨200, 100, 50⟩ :=
  (rgb_textual_roundtrip ⟨200, 100, 50⟩ (by decide)).2.2.2.2.2.1

/-- C1: the `median` code indexes the unsorted channel list, so two pixel
sequences holding the same channel multiset give different medians: the red
(and green, blue) values 40, 10, 30, 20 produce channel median 20, while the
sorted arrangement 10, 20, 30, 40 of the same values produces 25 — the value
the claim's sorted-median rule requires for both, so the code violates the
claim on the first sequence. -/
theorem median_ignores_sorting :
    median_pixel [⟨40, 40, 40⟩, ⟨10, 10, 10⟩, ⟨30, 30, 30⟩, ⟨20, 20, 20⟩]
      = some ⟨20, 20, 20⟩
    ∧ median_pixel [⟨10, 10, 10⟩, ⟨20, 20, 20⟩, ⟨30, 30, 30⟩, ⟨40, 40, 40⟩]
      = some ⟨25, 25, 25⟩
    ∧ (⟨20, 20, 20⟩ : RGB) ≠ ⟨25, 25, 25⟩ := by
  decide

/-- C2: for every non-empty pixel sequence, `average_pixel` succeeds and each
channel of the result is the floor of the channel sum divided by the pixel
count; for byte-valued pixels the result channels again fit in a byte (so the
`u8::try_from(...).unwrap()` in the source never panics). -/
theorem average_is_floor_sum_div (pixels : List RGB) (h : pixels ≠ [])
    (hb : ∀ p ∈ pixels, p.isByte) :
    ∃ r, average_pixel pixels = some r
      ∧ r.red = (pixels.map RGB.red).sum / pixels.length
      ∧ r.green = (pixels.map RGB.green).sum / pixels.length
      ∧ r.blue = (pixels.map RGB.blue).sum / pixels.length
      ∧ r.isByte := by
  have hne : pixels.isEmpty = false := by
    simpa [List.isEmpty_iff] using h
  have hlen : 0 < pixels.length := List.length_pos.mpr h
  have bound : ∀ f : RGB → Nat, (∀ p ∈ pixels, f p ≤ 255) →
      (pixels.map f).sum / pixels.length < 256 := by
    intro f hf
    have hsum : (pixels.map f).sum ≤ (pixels.map f).length • 255 := by
      apply List.sum_le_card_nsmul
      intro x hx
      obtain ⟨p, hp, rfl⟩ := List.mem_map.mp hx
      exact hf p hp
    have hsum' : (pixels.map f).sum ≤ pixels.length * 255 := by
      simpa [smul_eq_mul, List.length_map] using hsum
    have hd : (pixels.map f).sum / pixels.length ≤ (pixels.length * 255) / pixels.length :=
      Nat.div_le_div_right hsum'
    have he : (pixels.length * 255) / pixels.length = 255 := by
      rw [Nat.mul_comm]
      exact Nat.mul_div_cancel _ hlen
    omega
  refine ⟨⟨(pixels.map RGB.red).sum / pixels.length, (pixels.map RGB.green).sum / pixels.length,
    (pixels.map RGB.blue).sum / pixels.length⟩, by simp [average_pixel, hne], rfl, rfl, rfl, ?_, ?_, ?_⟩
  · exact bound RGB.red fun p hp => Nat.le_of_lt_succ (hb p hp).1
  · exact bound RGB.green fun p hp => Nat.le_of_lt_succ (hb p hp).2.1
  · exact bound RGB.blue fun p hp => Nat.le_of_lt_succ (hb p hp).2.2

/-- Witness for C2 at the two-pixel sequence (10,20,30), (11,21,31). -/
theorem average_is_floor_sum_div_witness :
    (([⟨10, 20, 30⟩, ⟨11, 21, 31⟩] : List RGB) ≠ [])
    ∧ (∀ p ∈ ([⟨10, 20, 30⟩, ⟨11, 21, 31⟩] : List RGB), p.isByte)
    ∧ ∃ r, average_pixel [⟨10, 20, 30⟩, ⟨11, 21, 31⟩] = some r
      ∧ r.red = (([⟨10, 20, 30⟩, ⟨11, 21, 31⟩] : List RGB).map RGB.red).sum / 2
      ∧ r.green = (([⟨10, 20, 30⟩, ⟨11, 21, 31⟩] : List RGB).map RGB.green).sum / 2
      ∧ r.blue = (([⟨10, 20, 30⟩, ⟨11, 21, 31⟩] : List RGB).map RGB.blue).sum / 2
      ∧ r.isByte :=
  ⟨by decide, by decide, average_is_floor_sum_div _ (by decide) (by decide)⟩

/-- C10: `calculate_color_theme` keeps the input as bar color, complements
each channel for the workspace color, and picks pure black exactly when all
three workspace channels exceed 128 and pure white otherwise. -/
theorem calculate_color_theme_spec (c : RGB) (h : c.isByte) :
    (calculate_color_theme c).bar_color = c
    ∧ (calculate_color_theme c).workspace_color =
        ⟨255 - c.red, 255 - c.green, 255 - c.blue⟩
    ∧ ((calculate_color_theme c).text_color = ⟨0, 0, 0⟩ ↔
        (128 < 255 - c.red ∧ 128 < 255 - c.green ∧ 128 < 255 - c.blue))
    ∧ ((calculate_color_theme c).text_color = ⟨0, 0, 0⟩
        ∨ (calculate_color_theme c).text_color = ⟨255, 255, 255⟩) := by
  refine ⟨rfl, rfl, ?_, ?_⟩
  · simp only [calculate_color_theme, complementary_color]
    split_ifs with hc
    · constructor
      · intro _
        exact ⟨hc.1, hc.2.2, hc.2.1⟩
      · intro _
        rfl
    · simp only [RGB.mk.injEq]
      constructor
      · intro hx
        omega
      · intro hx
        exact absurd ⟨hx.1, hx.2.2, hx.2.1⟩ hc
  · simp only [calculate_color_theme, complementary_color]
    split_ifs with hc
    · exact Or.inl rfl
    · exact Or.inr rfl

/-- Witness for C10 at the concrete color (200, 100, 50). -/
theorem calculate_color_theme_spec_witness :
    (calculate_color_theme ⟨200, 100, 50⟩).bar_color = ⟨200, 100, 50⟩
    ∧ (calculate_color_theme ⟨200, 100, 50⟩).workspace_color = ⟨55, 155, 205⟩
    ∧ ((calculate_color_theme ⟨200, 100, 50⟩).text_color = ⟨0, 0, 0⟩ ↔
        (128 < 55 ∧ 128 < 155 ∧ 128 < 205))
    ∧ ((calculate_color_theme ⟨200, 100, 50⟩).text_color = ⟨0, 0, 0⟩
        ∨ (calculate_color_theme ⟨200, 100, 50⟩).text_color = ⟨255, 255, 255⟩) :=
  calculate_color_theme_spec ⟨200, 100, 50⟩ (by decide)

/-! ### Helper lemmas for the prevalent extractor -/

theorem mem_pixel_prevalence_count {pixels : List RGB} {x : RGB × Nat}
    (hx : x ∈ pixel_prevalence_count pixels) :
    x.1 ∈ pixels ∧ x.2 = pixels.count x.1 := by
  obtain ⟨p, hp, rfl⟩ := List.mem_map.mp hx
  exact ⟨List.mem_dedup.mp hp, rfl⟩

theorem mem_pixel_prevalence_count_of_mem {pixels : List RGB} {p : RGB} (hp : p ∈ pixels) :
    (p, pixels.count p) ∈ pixel_prevalence_count pixels :=
  List.mem_map.mpr ⟨p, List.mem_dedup.mpr hp, rfl⟩

theorem length_pixel_prevalence_count (pixels : List RGB) :
    (pixel_prevalence_count pixels).length = pixels.toFinset.card := by
  rw [pixel_prevalence_count, List.length_map, List.card_toFinset]

theorem prevalent_pixel_eq_take (pixels : List RGB) (k : Nat) :
    prevalent_pixel pixels k
      = ((List.insertionSort prevalenceGE (pixel_prevalence_count pixels)).take k).map
          Prod.fst := by
  simp only [prevalent_pixel]
  split_ifs with hlt
  · rfl
  · rw [List.take_of_length_le (by omega)]

/-- C3: `prevalent_pixel` returns exactly `min k (number of distinct pixels)`
triples, its output is ordered by nonincreasing occurrence count, and every
returned triple's occurrence count is at least the occurrence count of every
pixel value not returned. -/
theorem prevalent_pixel_spec (pixels : List RGB) (k : Nat) :
    (prevalent_pixel pixels k).length = min k pixels.toFinset.card
    ∧ (prevalent_pixel pixels k).Pairwise (fun a b => pixels.count b ≤ pixels.count a)
    ∧ (∀ a ∈ prevalent_pixel pixels k, ∀ b ∈ pixels, b ∉ prevalent_pixel pixels k →
        pixels.count b ≤ pixels.count a) := by
  have hperm := List.perm_insertionSort prevalenceGE (pixel_prevalence_count pixels)
  have hsorted := List.sorted_insertionSort prevalenceGE (pixel_prevalence_count pixels)
  set S := List.insertionSort prevalenceGE (pixel_prevalence_count pixels) with hSdef
  have heq : prevalent_pixel pixels k = (S.take k).map Prod.fst :=
    prevalent_pixel_eq_take pixels k
  have hmemS : ∀ x ∈ S, x.1 ∈ pixels ∧ x.2 = pixels.count x.1 := by
    intro x hx
    exact mem_pixel_prevalence_count (hperm.mem_iff.mp hx)
  have hlenS : S.length = pixels.toFinset.card := by
    rw [hperm.length_eq, length_pixel_prevalence_count]
  refine ⟨?_, ?_, ?_⟩
  · rw [heq, List.length_map, List.length_take, hlenS]
  · rw [heq, List.pairwise_map]
    have h1 : (S.take k).Pairwise prevalenceGE :=
      List.Pairwise.sublist (List.take_sublist k S) hsorted
    refine List.Pairwise.imp_of_mem ?_ h1
    intro a b ha hb hr
    have ha' := hmemS a (List.take_subset k S ha)
    have hb' := hmemS b (List.take_subset k S hb)
    rw [← ha'.2, ← hb'.2]
    exact hr
  · intro a ha b hbpix hbnot
    rw [heq] at ha hbnot
    obtain ⟨pa, hpa, rfl⟩ := List.mem_map.mp ha
    have hbmemS : (b, pixels.count b) ∈ S :=
      hperm.mem_iff.mpr (mem_pixel_prevalence_count_of_mem hbpix)
    rw [← List.take_append_drop k S] at hbmemS
    rcases List.mem_append.mp hbmemS with hin | hin
    · exact absurd (List.mem_map.mpr ⟨(b, pixels.count b), hin, rfl⟩) hbnot
    · have hsorted' : List.Pairwise prevalenceGE (S.take k ++ S.drop k) := by
        rw [List.take_append_drop k S]
        exact hsorted
      have h3 := (List.pairwise_append.mp hsorted').2.2
      have hge := h3 pa hpa (b, pixels.count b) hin
      have hpa' := hmemS pa (List.take_subset k S hpa)
      rw [← hpa'.2]
      exact hge

/-! ### The sqlite cache (`src/database.rs`)

The three tables created by `DatabaseConnection::new` are modelled as lists
of rows in insertion order.  SQLite assigns `ROWID`s in increasing insertion
order and the code never deletes rows, so a fresh row's `ROWID` is the table
length plus one, and `ORDER BY ROWID` and the `.first()` calls of the code
correspond to list order and `List.find?`.  String-valued columns store the
same byte/character content the code interpolates (the wallpaper path, the
`Display` rendering of the centrality, and the `Display` rendering of a
color).  The `anyhow::Result` of each operation is an `Option`: an erroring
operation produces no new store. -/

/-- One row of the `wallpaper` table: `path TEXT`, `centrality TEXT`, and its
`ROWID`. -/
structure WallpaperRow where
  path : String
  centrality : String
  rowid : Nat
deriving DecidableEq, Repr

/-- One row of the `color_themes` table: the 15 option columns, the
`wallpaper` foreign key, and its `ROWID`. -/
structure ColorThemesRow where
  darker : Nat
  lighter : Nat
  complementary : Bool
  contrast : Bool
  hueOffset : Nat
  triadic : Bool
  quadratic : Bool
  tetratic : Bool
  analogous : Bool
  splitComplementary : Bool
  monochromatic : Nat
  shades : Nat
  tints : Nat
  tones : Nat
  blends : Nat
  wallpaper : Nat
  rowid : Nat
deriving DecidableEq, Repr

/-- One row of the `RGB` table: the color text, the `wallpaper` foreign key
and the `color_themes` foreign key.  Its own `ROWID` is referenced by nothing
and is represented by the row's list position. -/
structure RGBRow where
  rgb : List Nat
  wallpaper : Nat
  color_themes : Nat
deriving DecidableEq, Repr

/-- The cache database: the three tables, each in insertion order. -/
structure DB where
  wallpapers : List WallpaperRow
  color_themes : List ColorThemesRow
  rgbs : List RGBRow
deriving DecidableEq, Repr

/-- The freshly created store (all tables empty). -/
def DB.empty : DB :=
  { wallpapers := [], color_themes := [], rgbs := [] }

/-- `insert_wallpaper_record`: appends a `wallpaper` row holding the path and
the `Display` rendering of the centrality.  (The only error path in the code
is a path that is not valid UTF-8, which a `String` key cannot represent.) -/
def DB.insert_wallpaper_record (db : DB) (w : Wallpaper) : DB :=
  { db with wallpapers := db.wallpapers ++
      [{ path := w.path, centrality := w.centrality.display, rowid := db.wallpapers.length + 1 }] }

/-- `select_wallpaper_record`: the first `wallpaper` row whose `path` and
`centrality` columns equal the query values, parsed back (the centrality via
`Centrality::from_str`), together with its `ROWID`; an error (`none`) when no
row matches. -/
def DB.select_wallpaper_record (db : DB) (w : Wallpaper) :
    Option (Wallpaper × Nat) := do
  let row ← db.wallpapers.find?
    (fun r => decide (r.path = w.path ∧ r.centrality = w.centrality.display))
  let c ← Centrality.fromStr row.centrality
  some ({ path := row.path, centrality := c }, row.rowid)

/-- The `color_themes` row written for an option vector and a wallpaper
foreign key (the VALUES list of `insert_color_themes_record`). -/
def mkColorThemesRow (ct : ColorThemeOption) (wid rowid : Nat) : ColorThemesRow :=
  { darker := ct.darker, lighter := ct.lighter, complementary := ct.complementary,
    contrast := ct.contrast, hueOffset := ct.hue_offset, triadic := ct.triadic,
    quadratic := ct.quadratic, tetratic := ct.tetratic, analogous := ct.analogous,
    splitComplementary := ct.split_complementary, monochromatic := ct.monochromatic,
    shades := ct.shades, tints := ct.tints, tones := ct.tones, blends := ct.blends,
    wallpaper := wid, rowid := rowid }

/-- `insert_color_themes_record`: looks up the wallpaper row (erroring when it
is absent, in which case nothing is written) and appends a `color_themes` row
referencing it. -/
def DB.insert_color_themes_record (db : DB) (ct : ColorThemeOption) (w : Wallpaper) :
    Option DB := do
  let wrec ← db.select_wallpaper_record w
  some { db with color_themes := db.color_themes ++
      [mkColorThemesRow ct wrec.2 (db.color_themes.length + 1)] }

/-- The WHERE clause of `select_color_themes_record`: equality on all 15
option columns and on the `wallpaper` foreign key. -/
def matchesColorThemes (ct : ColorThemeOption) (wid : Nat) (r : ColorThemesRow) : Bool :=
  decide (r.darker = ct.darker ∧ r.lighter = ct.lighter ∧
    r.complementary = ct.complementary ∧ r.contrast = ct.contrast ∧
    r.hueOffset = ct.hue_offset ∧ r.triadic = ct.triadic ∧
    r.quadratic = ct.quadratic ∧ r.tetratic = ct.tetratic ∧
    r.analogous = ct.analogous ∧ r.splitComplementary = ct.split_complementary ∧
    r.monochromatic = ct.monochromatic ∧ r.shades = ct.shades ∧
    r.tints = ct.tints ∧ r.tones = ct.tones ∧ r.blends = ct.blends ∧
    r.wallpaper = wid)

/-- `select_color_themes_record`: looks up the wallpaper row, then the first
`color_themes` row matching all 15 option columns and the wallpaper foreign
key, and rebuilds a `ColorThemeOption` from the row's columns together with
the row's `ROWID`.  NOTE: the source reads the `lighter` column into the
`monochromatic` field (`src/database.rs` line 297); this translation keeps
that behavior. -/
def DB.select_color_themes_record (db : DB) (ct : ColorThemeOption) (w : Wallpaper) :
    Option (ColorThemeOption × Nat) := do
  let wrec ← db.select_wallpaper_record w
  let r ← db.color_themes.find? (matchesColorThemes ct wrec.2)
  some ({ darker := r.darker, lighter := r.lighter, complementary := r.complementary,
          contrast := r.contrast, hue_offset := r.hueOffset, triadic := r.triadic,
          quadratic := r.quadratic, tetratic := r.tetratic, analogous := r.analogous,
          split_complementary := r.splitComplementary,
          monochromatic := r.lighter,
          shades := r.shades, tints := r.tints, tones := r.tones, blends := r.blends },
        r.rowid)

/-- `insert_rgb_record`: looks up the wallpaper row and the config row
(erroring when either is absent, in which case nothing is written) and
appends an `RGB` row holding the `Display` rendering of the color and both
foreign keys. -/
def DB.insert_rgb_record (db : DB) (rgb : RGB) (w : Wallpaper) (ct : ColorThemeOption) :
    Option DB := do
  let wrec ← db.select_wallpaper_record w
  let crec ← db.select_color_themes_record ct w
  some { db with rgbs := db.rgbs ++
      [{ rgb := rgb.display, wallpaper := wrec.2, color_themes := crec.2 }] }

/-- `select_rgb_records`: looks up the wallpaper row and the config row, then
returns every `RGB` row referencing both, in `ROWID` (insertion) order, each
parsed back through `RGB::from_str` (whose `unwrap` panic on unparsable
stored text is modelled as `none`). -/
def DB.select_rgb_records (db : DB) (w : Wallpaper) (ct : ColorThemeOption) :
    Option (List RGB) := do
  let wrec ← db.select_wallpaper_record w
  let crec ← db.select_color_themes_record ct w
  let rows := db.rgbs.filter
    (fun r => decide (r.wallpaper = wrec.2 ∧ r.color_themes = crec.2))
  rows.mapM (fun r => RGB.fromStr r.rgb)

/-- The full insert sequence of the cache for one key and its colors: the
source row, the config row, then one result row per color in order, each
step through the corresponding `database.rs` operation. -/
def DB.insertAll (db : DB) (w : Wallpaper) (ct : ColorThemeOption) (colors : List RGB) :
    Option DB := do
  let db1 := db.insert_wallpaper_record w
  let db2 ← db1.insert_color_themes_record ct w
  colors.foldlM (fun d c => d.insert_rgb_record c w ct) db2

/-! ### Helper lemmas for the cache operations -/

theorem fromStr_display_centrality (c : Centrality) :
    Centrality.fromStr c.display = some c := by
  cases c <;> rfl

/-- The option vector that `select_color_themes_record` reads back from a row
written for `ct`: identical except that `monochromatic` receives the value of
the `lighter` column. -/
def ctReadback (ct : ColorThemeOption) : ColorThemeOption :=
  { ct with monochromatic := ct.lighter }

theorem select_wallpaper_set_rgbs (db : DB) (w : Wallpaper) (x : List RGBRow) :
    DB.select_wallpaper_record { db with rgbs := x } w = db.select_wallpaper_record w :=
  rfl

theorem select_color_themes_set_rgbs (db : DB) (ct : ColorThemeOption) (w : Wallpaper)
    (x : List RGBRow) :
    DB.select_color_themes_record { db with rgbs := x } ct w
      = db.select_color_themes_record ct w :=
  rfl

theorem select_wallpaper_of_head (db : DB) (w : Wallpaper) (rid : Nat)
    (rest : List WallpaperRow)
    (hw : db.wallpapers
      = { path := w.path, centrality := w.centrality.display, rowid := rid } :: rest) :
    db.select_wallpaper_record w = some (w, rid) := by
  rw [DB.select_wallpaper_record, hw, List.find?_cons_of_pos _ (by simp)]
  simp [fromStr_display_centrality]

theorem matchesColorThemes_self (ct : ColorThemeOption) (wid rid : Nat) :
    matchesColorThemes ct wid (mkColorThemesRow ct wid rid) = true := by
  simp [matchesColorThemes, mkColorThemesRow]

theorem matchesColorThemes_of_ne (ct1 ct2 : ColorThemeOption) (wid rid : Nat)
    (hne : ct1 ≠ ct2) :
    matchesColorThemes ct2 wid (mkColorThemesRow ct1 wid rid) = false := by
  simp only [matchesColorThemes, mkColorThemesRow, decide_eq_false_iff_not]
  intro hc
  obtain ⟨h1, h2, h3, h4, h5, h6, h7, h8, h9, h10, h11, h12, h13, h14, h15, _⟩ := hc
  exact hne (ColorThemeOption.ext h1 h2 h3 h4 h5 h6 h7 h8 h9 h10 h11 h12 h13 h14 h15)

theorem select_color_themes_of_head (db : DB) (ct : ColorThemeOption) (w : Wallpaper)
    (w' : Wallpaper) (wid rid : Nat) (rest : List ColorThemesRow)
    (hw : db.select_wallpaper_record w = some (w', wid))
    (hct : db.color_themes = mkColorThemesRow ct wid rid :: rest) :
    db.select_color_themes_record ct w = some (ctReadback ct, rid) := by
  rw [DB.select_color_themes_record, hw]
  simp only [Option.bind_eq_bind, Option.some_bind]
  rw [hct, List.find?_cons_of_pos _ (matchesColorThemes_self ct wid rid)]
  rfl

/-- The store produced by inserting the source row for `w` and then the config
row for `ct` into a fresh store. -/
def seededDB (w : Wallpaper) (ct : ColorThemeOption) : DB :=
  { wallpapers := [{ path := w.path, centrality := w.centrality.display, rowid := 1 }],
    color_themes := [mkColorThemesRow ct 1 1],
    rgbs := [] }

theorem select_wallpaper_after_insert (w : Wallpaper) :
    (DB.empty.insert_wallpaper_record w).select_wallpaper_record w = some (w, 1) := by
  apply select_wallpaper_of_head _ _ 1 []
  rfl

theorem insert_ct_after_insert_w (w : Wallpaper) (ct : ColorThemeOption) :
    (DB.empty.insert_wallpaper_record w).insert_color_themes_record ct w
      = some (seededDB w ct) := by
  rw [DB.insert_color_themes_record, select_wallpaper_after_insert]
  simp only [Option.bind_eq_bind, Option.some_bind]
  rfl

theorem select_wallpaper_seeded (w : Wallpaper) (ct : ColorThemeOption) (R : List RGBRow) :
    DB.select_wallpaper_record { seededDB w ct with rgbs := R } w = some (w, 1) := by
  apply select_wallpaper_of_head _ _ 1 []
  rfl

theorem select_ct_seeded (w : Wallpaper) (ct : ColorThemeOption) (R : List RGBRow) :
    DB.select_color_themes_record { seededDB w ct with rgbs := R } ct w
      = some (ctReadback ct, 1) := by
  apply select_color_themes_of_head _ _ _ w 1 1 []
  · exact select_wallpaper_seeded w ct R
  · rfl

theorem insert_rgb_record_eq (db : DB) (c : RGB) (w : Wallpaper) (ct : ColorThemeOption)
    (w' : Wallpaper) (wid : Nat) (ct' : ColorThemeOption) (cid : Nat)
    (hw : db.select_wallpaper_record w = some (w', wid))
    (hc : db.select_color_themes_record ct w = some (ct', cid)) :
    db.insert_rgb_record c w ct
      = some { db with rgbs := db.rgbs ++
          [{ rgb := c.display, wallpaper := wid, color_themes := cid }] } := by
  rw [DB.insert_rgb_record, hw]
  simp only [Option.bind_eq_bind, Option.some_bind]
  rw [hc]
  simp only [Option.some_bind]

theorem foldlM_insert_rgb (w : Wallpaper) (ct : ColorThemeOption) (colors : List RGB) :
    ∀ (db : DB) (w' : Wallpaper) (wid : Nat) (ct' : ColorThemeOption) (cid : Nat),
    db.select_wallpaper_record w = some (w', wid) →
    db.select_color_themes_record ct w = some (ct', cid) →
    colors.foldlM (fun d c => d.insert_rgb_record c w ct) db
      = some { db with rgbs := (db.rgbs ++
          colors.map
            (fun c => ({ rgb := c.display, wallpaper := wid, color_themes := cid } : RGBRow))) } := by
  induction colors with
  | nil =>
    intro db w' wid ct' cid hw hc
    simp
  | cons c cs ih =>
    intro db w' wid ct' cid hw hc
    rw [List.foldlM_cons, insert_rgb_record_eq db c w ct w' wid ct' cid hw hc]
    have hw2 : DB.select_wallpaper_record
        { db with rgbs := db.rgbs ++ [{ rgb := c.display, wallpaper := wid, color_themes := cid }] } w
        = some (w', wid) := by
      rw [select_wallpaper_set_rgbs]
      exact hw
    have hc2 : DB.select_color_themes_record
        { db with rgbs := db.rgbs ++ [{ rgb := c.display, wallpaper := wid, color_themes := cid }] } ct w
        = some (ct', cid) := by
      rw [select_color_themes_set_rgbs]
      exact hc
    have hbind : (some { db with rgbs := db.rgbs ++
        [{ rgb := c.display, wallpaper := wid, color_themes := cid }] } : Option DB) >>=
          (fun d => cs.foldlM (fun d c => d.insert_rgb_record c w ct) d)
        = cs.foldlM (fun d c => d.insert_rgb_record c w ct)
            { db with rgbs := db.rgbs ++
              [{ rgb := c.display, wallpaper := wid, color_themes := cid }] } := rfl
    rw [hbind, ih _ w' wid ct' cid hw2 hc2]
    simp [List.append_assoc]

theorem insertAll_eval (db : DB) (w : Wallpaper) (ct : ColorThemeOption) (colors : List RGB)
    (db2 : DB) (w' : Wallpaper) (wid : Nat) (ct' : ColorThemeOption) (cid : Nat)
    (h2 : (db.insert_wallpaper_record w).insert_color_themes_record ct w = some db2)
    (hw : db2.select_wallpaper_record w = some (w', wid))
    (hc : db2.select_color_themes_record ct w = some (ct', cid)) :
    db.insertAll w ct colors = some { db2 with rgbs := (db2.rgbs ++
      colors.map
        (fun c => ({ rgb := c.display, wallpaper := wid, color_themes := cid } : RGBRow))) } := by
  rw [DB.insertAll]
  simp only [Option.bind_eq_bind]
  rw [h2, Option.some_bind, foldlM_insert_rgb w ct colors db2 w' wid ct' cid hw hc]

theorem filter_rows_all (wid cid : Nat) (colors : List RGB) :
    (colors.map
      (fun c => ({ rgb := c.display, wallpaper := wid, color_themes := cid } : RGBRow))).filter
        (fun r => decide (r.wallpaper = wid ∧ r.color_themes = cid))
      = colors.map
          (fun c => ({ rgb := c.display, wallpaper := wid, color_themes := cid } : RGBRow)) := by
  apply List.filter_eq_self.mpr
  intro r hr
  obtain ⟨c, _, rfl⟩ := List.mem_map.mp hr
  simp

theorem mapM_fromStr_rows (wid cid : Nat) (colors : List RGB)
    (hb : ∀ c ∈ colors, c.isByte) :
    (colors.map
      (fun c => ({ rgb := c.display, wallpaper := wid, color_themes := cid } : RGBRow))).mapM
        (fun r => RGB.fromStr r.rgb)
      = some colors := by
  induction colors with
  | nil => rfl
  | cons c cs ih =>
    rw [List.map_cons, List.mapM_cons]
    have hc : RGB.fromStr c.display = some c := fromStr_display c (hb c (by simp))
    rw [hc]
    have hcs := ih (fun x hx => hb x (by simp [hx]))
    rw [hcs]
    simp only [Option.bind_eq_bind, Option.some_bind, Option.pure_def]

theorem select_rgb_records_of (db : DB) (w : Wallpaper) (ct : ColorThemeOption)
    (w' : Wallpaper) (wid : Nat) (ct' : ColorThemeOption) (cid : Nat) (colors : List RGB)
    (hw : db.select_wallpaper_record w = some (w', wid))
    (hc : db.select_color_themes_record ct w = some (ct', cid))
    (hr : db.rgbs = colors.map
      (fun c => ({ rgb := c.display, wallpaper := wid, color_themes := cid } : RGBRow)))
    (hb : ∀ c ∈ colors, c.isByte) :
    db.select_rgb_records w ct = some colors := by
  rw [DB.select_rgb_records, hw]
  simp only [Option.bind_eq_bind, Option.some_bind]
  rw [hc]
  simp only [Option.some_bind]
  rw [hr, filter_rows_all, mapM_fromStr_rows wid cid colors hb]

/-! ### Concrete keys and colors used by witnesses and counterexamples -/

/-- A concrete wallpaper key. -/
def wp0 : Wallpaper :=
  { path := "w", centrality := .average }

/-- A concrete color. -/
def colRed : RGB :=
  { red := 255, green := 0, blue := 0 }

/-- The default option vector with only `monochromatic` set. -/
def ctMono5 : ColorThemeOption :=
  { ColorThemeOption.default with monochromatic := 5 }

/-- The default option vector with only `darker` set, to 10. -/
def ctDark10 : ColorThemeOption :=
  { ColorThemeOption.default with darker := 10 }

/-- The default option vector with only `darker` set, to 11. -/
def ctDark11 : ColorThemeOption :=
  { ColorThemeOption.default with darker := 11 }

/-! ### Claim theorems: the cache -/

/-- C4: inserting the source row, the config row and one result row per color
for a key whose option vector has at most one non-default field, then looking
the same key up, returns exactly the inserted colors in insertion order. -/
theorem cache_roundtrip (w : Wallpaper) (ct : ColorThemeOption) (colors : List RGB)
    (_hopt : atMostOneNonDefault ct) (hb : ∀ c ∈ colors, c.isByte) :
    ∃ db', DB.empty.insertAll w ct colors = some db'
      ∧ db'.select_rgb_records w ct = some colors := by
  have hw0 : (seededDB w ct).select_wallpaper_record w = some (w, 1) := by
    apply select_wallpaper_of_head _ _ 1 []
    rfl
  have hc0 : (seededDB w ct).select_color_themes_record ct w = some (ctReadback ct, 1) := by
    apply select_color_themes_of_head _ _ _ w 1 1 [] hw0
    rfl
  have hins := insertAll_eval DB.empty w ct colors (seededDB w ct) w 1 (ctReadback ct) 1
    (insert_ct_after_insert_w w ct) hw0 hc0
  refine ⟨_, hins, ?_⟩
  refine select_rgb_records_of _ _ _ w 1 (ctReadback ct) 1 colors ?_ ?_ ?_ hb
  · rw [select_wallpaper_set_rgbs]
    exact hw0
  · rw [select_color_themes_set_rgbs]
    exact hc0
  · show (seededDB w ct).rgbs ++ _ = _
    simp [seededDB]

/-- Witness for C4: round-trip of the single color (255, 0, 0) under the
default option vector. -/
theorem cache_roundtrip_witness :
    atMostOneNonDefault ColorThemeOption.default
    ∧ (∀ c ∈ [colRed], c.isByte)
    ∧ ∃ db', DB.empty.insertAll wp0 ColorThemeOption.default [colRed] = some db'
      ∧ db'.select_rgb_records wp0 ColorThemeOption.default = some [colRed] :=
  ⟨by decide, by decide,
    cache_roundtrip wp0 ColorThemeOption.default [colRed] (by decide) (by decide)⟩

/-- C5: two option vectors differing in any field never match the same config
row — the WHERE clause of the config lookup is exact equality on all 15 option
fields plus the wallpaper reference — so a config row inserted under one key
is never found by a lookup under the other key. -/
theorem fingerprint_discrimination (ct1 ct2 : ColorThemeOption) (hne : ct1 ≠ ct2) :
    (∀ wid rid, matchesColorThemes ct2 wid (mkColorThemesRow ct1 wid rid) = false)
    ∧ (∀ (ct : ColorThemeOption) (wid rid : Nat),
        matchesColorThemes ct wid (mkColorThemesRow ct wid rid) = true)
    ∧ (∀ (w : Wallpaper) (db' : DB),
        (DB.empty.insert_wallpaper_record w).insert_color_themes_record ct1 w = some db' →
        db'.select_color_themes_record ct2 w = none) := by
  refine ⟨fun wid rid => matchesColorThemes_of_ne ct1 ct2 wid rid hne,
    fun ct wid rid => matchesColorThemes_self ct wid rid, ?_⟩
  intro w db' hdb
  rw [insert_ct_after_insert_w] at hdb
  injection hdb with hdb
  subst hdb
  have hw0 : (seededDB w ct1).select_wallpaper_record w = some (w, 1) := by
    apply select_wallpaper_of_head _ _ 1 []
    rfl
  rw [DB.select_color_themes_record, hw0]
  simp only [Option.bind_eq_bind, Option.some_bind]
  have hcts : (seededDB w ct1).color_themes = [mkColorThemesRow ct1 1 1] := rfl
  rw [hcts, List.find?_cons_of_neg _ (by simp [matchesColorThemes_of_ne ct1 ct2 1 1 hne])]
  rfl

/-- Witness for C5: `darker = 10` versus `darker = 11`. -/
theorem fingerprint_discrimination_witness :
    matchesColorThemes ctDark11 1 (mkColorThemesRow ctDark10 1 1) = false :=
  (fingerprint_discrimination ctDark10 ctDark11 (by decide)).1 1 1

/-- C6 counterexample: running the full insert sequence twice for the same key
and the single color (255, 0, 0) makes the lookup return that color twice, not
the single-insert result — the second run's result rows reference the
first-created source and config rows, so the lookup's row filter collects both
runs' rows. -/
theorem double_insert_changes_lookup :
    ((DB.empty.insertAll wp0 ColorThemeOption.default [colRed]).bind
        (fun d1 => d1.insertAll wp0 ColorThemeOption.default [colRed])).bind
      (fun d2 => d2.select_rgb_records wp0 ColorThemeOption.default)
      = some [colRed, colRed]
    ∧ (DB.empty.insertAll wp0 ColorThemeOption.default [colRed]).bind
        (fun d1 => d1.select_rgb_records wp0 ColorThemeOption.default)
      = some [colRed]
    ∧ some [colRed, colRed] ≠ (some [colRed] : Option (List RGB)) := by
  decide

/-- The store produced by running the source-row and config-row inserts a
second time over a store already holding them (plus result rows `R`): the
duplicate source row gets `ROWID` 2 and the duplicate config row gets `ROWID`
2 but still references source `ROWID` 1, because the wallpaper lookup inside
the insert returns the first-created matching row. -/
def doubledDB (w : Wallpaper) (ct : ColorThemeOption) (R : List RGBRow) : DB :=
  { wallpapers := [{ path := w.path, centrality := w.centrality.display, rowid := 1 },
                   { path := w.path, centrality := w.centrality.display, rowid := 2 }],
    color_themes := [mkColorThemesRow ct 1 1, mkColorThemesRow ct 1 2],
    rgbs := R }

theorem insert_ct_second_time (w : Wallpaper) (ct : ColorThemeOption) (R : List RGBRow) :
    (({ seededDB w ct with rgbs := R } : DB).insert_wallpaper_record w).insert_color_themes_record
        ct w
      = some (doubledDB w ct R) := by
  have hsel : (({ seededDB w ct with rgbs := R } : DB).insert_wallpaper_record
      w).select_wallpaper_record w = some (w, 1) := by
    apply select_wallpaper_of_head _ _ 1
      [{ path := w.path, centrality := w.centrality.display, rowid := 2 }]
    rfl
  rw [DB.insert_color_themes_record, hsel]
  simp only [Option.bind_eq_bind, Option.some_bind]
  rfl

theorem select_wallpaper_doubled (w : Wallpaper) (ct : ColorThemeOption) (R : List RGBRow) :
    (doubledDB w ct R).select_wallpaper_record w = some (w, 1) := by
  apply select_wallpaper_of_head _ _ 1
    [{ path := w.path, centrality := w.centrality.display, rowid := 2 }]
  rfl

theorem select_ct_doubled (w : Wallpaper) (ct : ColorThemeOption) (R : List RGBRow) :
    (doubledDB w ct R).select_color_themes_record ct w = some (ctReadback ct, 1) := by
  apply select_color_themes_of_head _ _ _ w 1 1 [mkColorThemesRow ct 1 2]
    (select_wallpaper_doubled w ct R)
  rfl

/-- C6 amended: running the full insert sequence twice with an identical key
and identical colors duplicates the source, config and result rows; a
subsequent lookup still selects the first-created matching source and config
rows, but since the second run's result rows reference those same first rows,
the lookup returns the color list twice (the single-insert result concatenated
with itself) rather than the single-insert result. -/
theorem double_insert_lookup (w : Wallpaper) (ct : ColorThemeOption) (colors : List RGB)
    (hb : ∀ c ∈ colors, c.isByte) :
    ∃ d2, (DB.empty.insertAll w ct colors).bind (fun d1 => d1.insertAll w ct colors) = some d2
      ∧ d2.select_rgb_records w ct = some (colors ++ colors) := by
  have hw0 : (seededDB w ct).select_wallpaper_record w = some (w, 1) := by
    apply select_wallpaper_of_head _ _ 1 []
    rfl
  have hc0 : (seededDB w ct).select_color_themes_record ct w = some (ctReadback ct, 1) := by
    apply select_color_themes_of_head _ _ _ w 1 1 [] hw0
    rfl
  have hins1 := insertAll_eval DB.empty w ct colors (seededDB w ct) w 1 (ctReadback ct) 1
    (insert_ct_after_insert_w w ct) hw0 hc0
  have hins2 := insertAll_eval
    { seededDB w ct with rgbs := ((seededDB w ct).rgbs ++
      colors.map
        (fun c => ({ rgb := c.display, wallpaper := 1, color_themes := 1 } : RGBRow))) }
    w ct colors
    (doubledDB w ct ((seededDB w ct).rgbs ++
      colors.map
        (fun c => ({ rgb := c.display, wallpaper := 1, color_themes := 1 } : RGBRow))))
    w 1 (ctReadback ct) 1
    (insert_ct_second_time w ct _) (select_wallpaper_doubled w ct _) (select_ct_doubled w ct _)
  refine ⟨_, by rw [hins1, Option.some_bind]; exact hins2, ?_⟩
  refine select_rgb_records_of _ _ _ w 1 (ctReadback ct) 1 (colors ++ colors) ?_ ?_ ?_ ?_
  · rw [select_wallpaper_set_rgbs]
    exact select_wallpaper_doubled w ct _
  · rw [select_color_themes_set_rgbs]
    exact select_ct_doubled w ct _
  · simp [doubledDB, seededDB, List.map_append]
  · intro c hc
    rcases List.mem_append.mp hc with h' | h' <;> exact hb c h'

/-- Witness for C6 at the key `wp0` with the default options and the single
color (255, 0, 0). -/
theorem double_insert_lookup_witness :
    (∀ c ∈ [colRed], c.isByte)
    ∧ ∃ d2, (DB.empty.insertAll wp0 ColorThemeOption.default [colRed]).bind
        (fun d1 => d1.insertAll wp0 ColorThemeOption.default [colRed]) = some d2
      ∧ d2.select_rgb_records wp0 ColorThemeOption.default = some ([colRed] ++ [colRed]) :=
  ⟨by decide, double_insert_lookup wp0 ColorThemeOption.default [colRed] (by decide)⟩

/-- C7: a config-row insert fails (and writes nothing — its error short-circuits
before any write, producing no successor store) when no source row matches the
wallpaper, and a result-row insert fails when the source row or the config row
is absent. -/
theorem dependent_write_failure (db : DB) (ct : ColorThemeOption) (w : Wallpaper) (rgb : RGB) :
    (db.select_wallpaper_record w = none → db.insert_color_themes_record ct w = none)
    ∧ (db.select_wallpaper_record w = none → db.insert_rgb_record rgb w ct = none)
    ∧ (db.select_color_themes_record ct w = none → db.insert_rgb_record rgb w ct = none) := by
  refine ⟨?_, ?_, ?_⟩
  · intro h
    rw [DB.insert_color_themes_record, h]
    rfl
  · intro h
    rw [DB.insert_rgb_record, h]
    rfl
  · intro h
    rw [DB.insert_rgb_record]
    cases hw : db.select_wallpaper_record w
    · rfl
    · simp only [Option.bind_eq_bind, Option.some_bind, h]
      rfl

/-- Witness for C7: on the empty store, both dependent inserts fail. -/
theorem dependent_write_failure_witness :
    DB.empty.insert_color_themes_record ColorThemeOption.default wp0 = none
    ∧ DB.empty.insert_rgb_record colRed wp0 ColorThemeOption.default = none :=
  ⟨(dependent_write_failure DB.empty ColorThemeOption.default wp0 colRed).1 (by decide),
   (dependent_write_failure DB.empty ColorThemeOption.default wp0 colRed).2.1 (by decide)⟩

/-- C9: reading a config row back does not reproduce the stored option vector:
after inserting the source row and a config row with `monochromatic = 5` (all
other fields default, so `lighter = 0`), the select returns an option vector
whose `monochromatic` is 0 — the source reads the `lighter` column into the
`monochromatic` field. -/
theorem monochromatic_readback_bug :
    ((DB.empty.insert_wallpaper_record wp0).insert_color_themes_record ctMono5 wp0).bind
      (fun db => db.select_color_themes_record ctMono5 wp0)
      = some (ctReadback ctMono5, 1)
    ∧ (ctReadback ctMono5).monochromatic = 0
    ∧ ctMono5.monochromatic = 5
    ∧ ctReadback ctMono5 ≠ ctMono5 := by
  decide
